import Mathlib

/-!
# Verification of the `ConsolePage` voice-chat client

Shallow embedding of `src/pages/ConsolePage.tsx`: the React state of the
page is an explicit record, the `setX` updaters and the calls into the
realtime SDK / Web Audio API become an explicit trace of actions, and
each handler (`connectConversation`, `disconnectConversation`,
`changeTurnEndType`, the `set_memory` tool handler, the
`realtime.event` log reducer, `updateAudioLevels`, the canvas render
loop, and the API-key logic) is a Lean function from its inputs and the
current state to the new state plus the emitted action trace.  Awaited
external calls may succeed or throw; which ones throw is an explicit
environment parameter, and a `try`/`catch` becomes a case split on it.
JavaScript truthiness on optional strings/numbers is modelled explicitly
(`none` and `some ""` / `some 0` are falsy).
-/

namespace ConsolePage

/-- JavaScript truthiness of a possibly-absent string
(`undefined`, `null` and `""` are falsy). -/
def jsTruthy : Option String → Bool
  | none => false
  | some s => !(s == "")

/-- JavaScript `count || 1`: an absent count, and the falsy count `0`,
are both read as `1`. -/
def jsCountOr1 : Option Nat → Nat
  | none => 1
  | some 0 => 1
  | some n => n

/-- JavaScript `o || d` on a possibly-absent string: the string itself
when truthy, otherwise the fallback. -/
def jsOrStr (o : Option String) (d : String) : String :=
  match o with
  | none => d
  | some s => if s == "" then d else s

/-- The payload of a realtime event (`realtimeEvent.event` in the code):
an arbitrary object of which only the `type` field is inspected, and
that field may itself be absent. -/
structure EventBody where
  type : Option String
deriving DecidableEq, Repr

/-- `RealtimeEvent` of `ConsolePage.tsx`: a log entry with a timestamp,
a source, an optional repeat count and the event payload.  The `event`
field is `Option` because the handler guards against it being absent at
runtime. -/
structure RealtimeEvent where
  time : String
  source : String
  count : Option Nat
  event : Option EventBody
deriving DecidableEq, Repr

/-- The `event.type` of a log entry, when present. -/
def etype (e : RealtimeEvent) : Option String :=
  e.event.bind EventBody.type

/-- The updater passed to `setRealtimeEvents` in the `realtime.event`
handler: if the last entry has a truthy `event.type` equal to the truthy
`event.type` of the incoming event, the last entry is replaced with its
count incremented (`(lastEvent.count || 1) + 1`); otherwise the incoming
event is appended with `count: 1`. -/
def eventLogStep (prevEvents : List RealtimeEvent) (e : RealtimeEvent) :
    List RealtimeEvent :=
  match prevEvents.getLast? with
  | some lastEvent =>
    if jsTruthy (etype lastEvent) && jsTruthy (etype e)
        && (etype lastEvent == etype e) then
      prevEvents.dropLast
        ++ [{ lastEvent with count := some (jsCountOr1 lastEvent.count + 1) }]
    else
      prevEvents ++ [{ e with count := some 1 }]
  | none => prevEvents ++ [{ e with count := some 1 }]

/-- The full `realtime.event` handler: an absent event, or an event with
an absent `event` field, is logged with `console.warn` and leaves the
list unchanged; otherwise the `setRealtimeEvents` updater runs. -/
def handleRealtimeEvent (prevEvents : List RealtimeEvent)
    (e : Option RealtimeEvent) : List RealtimeEvent :=
  match e with
  | none => prevEvents
  | some ev =>
    match ev.event with
    | none => prevEvents
    | some _ => eventLogStep prevEvents ev

/-- Delivering a sequence of (possibly invalid) realtime events to the
handler, starting from the empty log. -/
def deliverAll (es : List (Option RealtimeEvent)) : List RealtimeEvent :=
  es.foldl handleRealtimeEvent []

/-- Two adjacent log entries are acceptable when they do not share an
equal truthy `event.type`. -/
def adjOk (a b : RealtimeEvent) : Prop :=
  ¬(jsTruthy (etype a) = true ∧ etype a = etype b)

instance (a b : RealtimeEvent) : Decidable (adjOk a b) := by
  unfold adjOk; infer_instance

/-- One entry of the `audioLevels` state: a bar level and a stable id.
Levels are rationals, standing for the JavaScript numbers computed from
frequency data and `Math.random()`. -/
structure AudioLevel where
  level : ℚ
  id : Nat
deriving DecidableEq, Repr

/-- The `useState` part of `ConsolePage` that the verified handlers read
and write, plus the two refs they use (`animationFrameRef`, and whether
the `audioContext` state holds an open context).  Conversation items are
kept as opaque strings. -/
structure UIState where
  isConnected : Bool
  isRecording : Bool
  isRecordingActive : Bool
  canPushToTalk : Bool
  items : List String
  realtimeEvents : List RealtimeEvent
  memoryKv : List (String × String)
  audioLevels : List AudioLevel
  animationFrame : Option Nat
  audioContextOpen : Bool
deriving DecidableEq, Repr

/-- The observable actions a handler performs, in order: calls into the
browser and the realtime SDK, console output, and the React state
updates.  `updateSession td` carries the `turn_detection` argument
(`none` for `null`, `some "server_vad"` for `{ type: 'server_vad' }`). -/
inductive Action where
  | getUserMedia
  | requestFrame
  | cancelFrame (id : Nat)
  | audioContextClose
  | consoleLog (msg : String)
  | consoleError (msg : String)
  | setStartTime
  | setConnected (b : Bool)
  | setRecording (b : Bool)
  | setRecordingActive (b : Bool)
  | setCanPushToTalk (b : Bool)
  | setItems (xs : List String)
  | clearEvents
  | clearItems
  | clearMemory
  | resetLevels
  | setAudioContextNull
  | setAnalyserNull
  | recorderBegin
  | recorderEnd
  | recorderPause
  | recorderRecord
  | playerConnect
  | playerInterrupt
  | clientConnect
  | clientDisconnect
  | updateSession (td : Option String)
  | sendUserMessage (text : String)
  | sleep (ms : Nat)
  | appendInputAudio (mono : List Int)
deriving DecidableEq, Repr

/-- The microphone data callback installed by `wavRecorder.record` in
`connectConversation` and in `changeTurnEndType`: each chunk is appended
to the client via `client.appendInputAudio(data.mono)` only when
`client.isConnected()` holds at that moment. -/
def recordCallback (clientConnected : Bool) (mono : List Int) : List Action :=
  if clientConnected then [Action.appendInputAudio mono] else []

/-- `disconnectConversation`: cancel the pending animation frame when
the ref holds a truthy id, await `audioContext.close()` when an audio
context is held, reset the UI state, then disconnect the client, end the
recorder and interrupt the stream player. -/
def disconnectConversation (s : UIState) : UIState × List Action :=
  let t0 : List Action :=
    match s.animationFrame with
    | some id => if id ≠ 0 then [Action.cancelFrame id] else []
    | none => []
  let t1 := if s.audioContextOpen then t0 ++ [Action.audioContextClose] else t0
  let s1 : UIState :=
    { s with
      audioContextOpen := false
      isRecordingActive := false
      isConnected := false
      audioLevels := s.audioLevels.map (fun l => { l with level := 20 })
      isRecording := false
      realtimeEvents := []
      items := []
      memoryKv := [] }
  (s1,
    t1 ++ [Action.setAudioContextNull, Action.setAnalyserNull,
      Action.setRecordingActive false, Action.setConnected false,
      Action.resetLevels, Action.setRecording false, Action.clearEvents,
      Action.clearItems, Action.clearMemory, Action.clientDisconnect,
      Action.recorderEnd, Action.playerInterrupt])

/-- The environment of one `connectConversation` run: which awaited
external calls succeed, whether the refs are initialized, what
`client.isConnected()` reports after `client.connect()`, the items the
client's conversation currently holds, and the id handed back by
`requestAnimationFrame`. -/
structure ConnectEnv where
  userMediaOk : Bool
  refsOk : Bool
  recorderBeginOk : Bool
  playerConnectOk : Bool
  clientConnectOk : Bool
  connectedAfter : Bool
  updateSessionOk : Bool
  recordOk : Bool
  clientItems : List String
  frameId : Nat
deriving DecidableEq, Repr

/-- `connectConversation`.  The outer `try` covers microphone
acquisition; its `catch` logs `Error connecting:` and resets the two
flags.  The inner `try` covers the remaining awaited setup; its `catch`
logs `Error connecting conversation:` and resets the two flags.  The
session update, the greeting and the recording start run only when
`client.isConnected()` reports true after `client.connect()`.  Both
catches swallow the error, so the function always returns a plain
result and never rethrows. -/
def connectConversation (env : ConnectEnv) (s : UIState) :
    UIState × List Action :=
  if !env.userMediaOk then
    ({ s with isConnected := false, isRecordingActive := false },
      [Action.getUserMedia, Action.consoleError "Error connecting:",
        Action.setConnected false, Action.setRecordingActive false])
  else
    let s1 := { s with isRecordingActive := true,
                       animationFrame := some env.frameId }
    let t1 := [Action.getUserMedia, Action.setRecordingActive true,
      Action.requestFrame, Action.consoleLog "Starting connection..."]
    if !env.refsOk then
      (s1, t1 ++ [Action.consoleError "Required components are not initialized"])
    else
      let t2 := t1 ++
        [Action.consoleLog "Components checked, proceeding with connection...",
          Action.setStartTime, Action.setConnected true, Action.clearEvents,
          Action.setItems env.clientItems]
      let s2 := { s1 with isConnected := true, realtimeEvents := [],
                          items := env.clientItems }
      let innerFail := fun (t : List Action) =>
        ({ s2 with isConnected := false, isRecordingActive := false },
          t ++ [Action.consoleError "Error connecting conversation:",
            Action.setConnected false, Action.setRecordingActive false])
      let t3 := t2 ++ [Action.recorderBegin]
      if !env.recorderBeginOk then innerFail t3
      else
        let t4 := t3 ++ [Action.playerConnect]
        if !env.playerConnectOk then innerFail t4
        else
          let t5 := t4 ++ [Action.clientConnect]
          if !env.clientConnectOk then innerFail t5
          else if !env.connectedAfter then (s2, t5)
          else
            let t6 := t5 ++ [Action.consoleLog "Successfully connected!",
              Action.updateSession (some "server_vad")]
            if !env.updateSessionOk then innerFail t6
            else
              let t7 := t6 ++ [Action.sendUserMessage "Привіт!",
                Action.recorderRecord]
              if !env.recordOk then innerFail t7
              else (s2, t7)

/-- The environment of one `changeTurnEndType` run: whether the refs
are initialized, whether `wavRecorder.getStatus()` reports `recording`,
whether `client.isConnected()` holds, and which awaited calls succeed. -/
structure TurnEnv where
  refsOk : Bool
  recorderStatusRecording : Bool
  pauseOk : Bool
  clientConnected : Bool
  updateSessionOk : Bool
  recordOk : Bool
deriving DecidableEq, Repr

/-- The tail of `changeTurnEndType` after the optional pause: update the
session when the client is connected (with `turn_detection: null` for
`'none'` and `{ type: 'server_vad' }` otherwise), start a new recording
after a 100 ms delay when the value is `'server_vad'`, and finally set
`canPushToTalk` to `value === 'none'`.  An error on an awaited call
aborts with a `console.error` and skips the `setCanPushToTalk`. -/
def changeTurnRest (env : TurnEnv) (value : String) (s : UIState)
    (t : List Action) : UIState × List Action :=
  let done := fun (t' : List Action) =>
    ({ s with canPushToTalk := value == "none" },
      t' ++ [Action.setCanPushToTalk (value == "none")])
  if env.clientConnected then
    let t2 := t ++ [Action.updateSession
      (if value == "none" then none else some "server_vad")]
    if !env.updateSessionOk then
      (s, t2 ++ [Action.consoleError "Error changing turn end type:"])
    else if value == "server_vad" then
      let t3 := t2 ++ [Action.sleep 100, Action.recorderRecord]
      if !env.recordOk then
        (s, t3 ++ [Action.consoleError "Error changing turn end type:"])
      else done t3
    else done t2
  else done t

/-- `changeTurnEndType`: inside one `try`, pause the recorder when it is
currently recording, run `changeTurnRest`, and catch any error with a
`console.error` (no retry, no rethrow). -/
def changeTurnEndType (env : TurnEnv) (value : String) (s : UIState) :
    UIState × List Action :=
  if !env.refsOk then (s, [])
  else if env.recorderStatusRecording then
    if !env.pauseOk then
      (s, [Action.recorderPause,
        Action.consoleError "Error changing turn end type:"])
    else
      changeTurnRest env value { s with isRecording := false }
        [Action.recorderPause, Action.setRecording false]
  else
    changeTurnRest env value s []

/-- `localStorage`, as an ordered association list of keys to values. -/
abbrev Storage := List (String × String)

/-- `localStorage.getItem`: the value of the first entry with the key,
`null` (`none`) when absent. -/
def Storage.getItem (st : Storage) (k : String) : Option String :=
  (List.find? (fun p => p.1 == k) st).map (fun p => p.2)

/-- `localStorage.setItem`: overwrite the entry when the key exists,
otherwise append it. -/
def Storage.setItem (st : Storage) (k v : String) : Storage :=
  if List.any st (fun p => p.1 == k) then
    List.map (fun p => if p.1 == k then (p.1, v) else p) st
  else st ++ [(k, v)]

/-- `localStorage.clear()`. -/
def Storage.clearAll : Storage := []

/-- The storage-side actions of the API-key logic. -/
inductive KeyAction where
  | storageClear
  | storageSet (k v : String)
  | promptUser
  | reload
deriving DecidableEq, Repr

/-- The module-level `apiKey` initialization of `ConsolePage`: with a
truthy relay URL the key is `''`; otherwise it is
`localStorage.getItem('tmp::voice_api_key') || prompt('OpenAI API Key')
|| ''`, and any non-empty result is written back with
`localStorage.setItem('tmp::voice_api_key', apiKey)`. -/
def initApiKey (relayUrl : String) (st : Storage)
    (promptResult : Option String) : String × Storage :=
  let key :=
    if relayUrl == "" then
      jsOrStr (st.getItem "tmp::voice_api_key") (jsOrStr promptResult "")
    else ""
  if key == "" then (key, st)
  else (key, st.setItem "tmp::voice_api_key" key)

/-- `resetAPIKey`: prompt for a key; when the prompt is not cancelled
(`!== null`), clear local storage, store the entered key under
`tmp::voice_api_key`, and reload the page — in that order. -/
def resetAPIKey (st : Storage) (promptResult : Option String) :
    Storage × List KeyAction :=
  match promptResult with
  | none => (st, [KeyAction.promptUser])
  | some key =>
    (Storage.setItem Storage.clearAll "tmp::voice_api_key" key,
      [KeyAction.promptUser, KeyAction.storageClear,
        KeyAction.storageSet "tmp::voice_api_key" key, KeyAction.reload])

/-- The drawing actions of one frame of the visualization render loop,
with the arguments the code passes to `WavRenderer.drawBars`. -/
inductive RenderAction where
  | clearClient
  | drawClientBars (values : List ℚ) (color : String)
      (barWidth glowWidth maxHeight : Nat)
  | clearServer
  | drawServerBars (values : List ℚ) (color : String)
      (barWidth glowWidth maxHeight : Nat)
  | requestNextFrame
deriving DecidableEq, Repr

/-- The inputs one frame of the render loop reads: whether each canvas
and 2d context is available, whether `wavRecorder.recording` holds and
its `getFrequencies('voice').values`, and whether
`wavStreamPlayer.analyser` exists and its frequency values. -/
structure RenderEnv where
  clientCanvasOk : Bool
  clientCtxOk : Bool
  serverCanvasOk : Bool
  serverCtxOk : Bool
  recording : Bool
  recorderFreqs : List ℚ
  analyserPresent : Bool
  playerFreqs : List ℚ
deriving DecidableEq, Repr

/-- One iteration of `render` in the visualization `useEffect`, with
`isLoaded` true: when the client canvas and context exist, clear the
canvas and draw bars from `wavRecorder.getFrequencies('voice')` when
recording and from `new Float32Array([0])` otherwise; likewise for the
server canvas from the stream player, keyed on
`wavStreamPlayer.analyser`; then request the next frame. -/
def renderFrame (env : RenderEnv) : List RenderAction :=
  (if env.clientCanvasOk && env.clientCtxOk then
    [RenderAction.clearClient,
      RenderAction.drawClientBars
        (if env.recording then env.recorderFreqs else [0]) "#4F46E5" 20 2 16]
  else []) ++
  (if env.serverCanvasOk && env.serverCtxOk then
    [RenderAction.clearServer,
      RenderAction.drawServerBars
        (if env.analyserPresent then env.playerFreqs else [0]) "#009900" 10 0 8]
  else []) ++ [RenderAction.requestNextFrame]

/-- The lookup a JavaScript object read `kv[k]` performs on the
memory map. -/
def objGet (kv : List (String × String)) (k : String) : Option String :=
  (List.find? (fun p => p.1 == k) kv).map (fun p => p.2)

/-- The updater passed to `setMemoryKv` by the `set_memory` tool
handler: copy the object and assign `newKv[key] = value` (overwriting an
existing key, appending a new one). -/
def objSet (kv : List (String × String)) (key value : String) :
    List (String × String) :=
  if List.any kv (fun p => p.1 == key) then
    List.map (fun p => if p.1 == key then (p.1, value) else p) kv
  else kv ++ [(key, value)]

/-- The `set_memory` tool handler: update the memory map and return
`{ ok: true }`. -/
def setMemoryHandler (kv : List (String × String)) (key value : String) :
    List (String × String) × Bool :=
  (objSet kv key value, true)

/-- `min`/`max` clamping as `Math.min(hi, Math.max(lo, x))`. -/
def jsClamp (lo hi x : ℚ) : ℚ := min hi (max lo x)

/-- `prev.map((level, index) => ...)`: a map that also passes the index,
starting from `i`. -/
def mapIdxFrom (f : Nat → AudioLevel → AudioLevel) :
    Nat → List AudioLevel → List AudioLevel
  | _, [] => []
  | i, l :: ls => f i l :: mapIdxFrom f (i + 1) ls

/-- The initial `audioLevels` state: five bars, all at level 20. -/
def initialAudioLevels : List AudioLevel :=
  [⟨20, 1⟩, ⟨20, 2⟩, ⟨20, 3⟩, ⟨20, 4⟩, ⟨20, 5⟩]

/-- One step of `updateAudioLevels`.  While the recorder is recording
and frequency values are available, each bar becomes
`clamp(20, 100, clamp(20, 100, average·150 + index·10) + random·20 − 10)`
where `average` is the mean of the values amplified by 2.5 and `random`
is a fresh `Math.random()` draw per bar; without frequency values the
levels are untouched.  While the recorder is not recording, each bar
becomes `20 + Math.random()·5`.  Ids are kept. -/
def updateAudioLevels (recording : Bool) (freqs : Option (List ℚ))
    (randRec randIdle : Nat → ℚ) (levels : List AudioLevel) :
    List AudioLevel :=
  if recording then
    match freqs with
    | some vs =>
      let amplified := vs.map (fun v => v * (5 / 2))
      let average := amplified.sum / (amplified.length : ℚ)
      mapIdxFrom
        (fun i l =>
          let randomFactor := randRec i * 20 - 10
          let baseLevel := jsClamp 20 100 (average * 150 + (i : ℚ) * 10)
          { l with level := jsClamp 20 100 (baseLevel + randomFactor) })
        0 levels
    | none => levels
  else
    mapIdxFrom (fun i l => { l with level := 20 + randIdle i * 5 }) 0 levels

/-- The condition under which some awaited setup step of
`connectConversation` throws: microphone acquisition fails, or the refs
are present and the recorder begin, player connect or client connect
fails, or — once the client reports connected — the session update or
the recording start fails. -/
def connectStepFails (env : ConnectEnv) : Bool :=
  !env.userMediaOk ||
    (env.refsOk && (!env.recorderBeginOk || !env.playerConnectOk ||
      !env.clientConnectOk ||
      (env.connectedAfter && (!env.updateSessionOk || !env.recordOk))))

/-- The condition under which some awaited call inside
`changeTurnEndType` throws: the pause of an active recording fails, or —
with the client connected — the session update fails, or the recording
restart fails in `server_vad` mode. -/
def turnStepFails (env : TurnEnv) (value : String) : Bool :=
  env.refsOk &&
    (if env.recorderStatusRecording && !env.pauseOk then true
     else env.clientConnected &&
       (!env.updateSessionOk || (value == "server_vad" && !env.recordOk)))

/-- Does an action trace record a `console.error` call? -/
def hasConsoleError (t : List Action) : Bool :=
  t.any fun a => match a with
    | Action.consoleError _ => true
    | _ => false

/-- How many times a trace calls `client.updateSession`. -/
def countUpdateSession (t : List Action) : Nat :=
  t.countP fun a => match a with
    | Action.updateSession _ => true
    | _ => false

/-- How many times a trace calls `wavRecorder.record`. -/
def countRecord (t : List Action) : Nat :=
  t.countP fun a => match a with
    | Action.recorderRecord => true
    | _ => false

end ConsolePage

namespace ConsolePage

/-! ## Association-map lemmas for `objGet`/`objSet` and `localStorage` -/

theorem objGet_cons (p : String × String) (ps : List (String × String))
    (k : String) :
    objGet (p :: ps) k =
      if (p.1 == k) = true then some p.2 else objGet ps k := by
  by_cases hp : (p.1 == k) = true
  · simp [objGet, List.find?_cons, hp]
  · simp [objGet, List.find?_cons, hp]

theorem objGet_map_set_self (kv : List (String × String)) (key value : String) :
    objGet (List.map (fun p => if p.1 == key then (p.1, value) else p) kv) key =
      if List.any kv (fun p => p.1 == key) then some value else none := by
  induction kv with
  | nil => rfl
  | cons p ps ih =>
    rw [List.map_cons]
    by_cases hp : (p.1 == key) = true
    · rw [if_pos hp, objGet_cons]
      simp [hp, List.any_cons]
    · rw [if_neg hp, objGet_cons, if_neg hp, ih]
      have hpf : (p.1 == key) = false := by simpa using hp
      rw [List.any_cons, hpf, Bool.false_or]

theorem objGet_map_set_other (kv : List (String × String))
    (key value k : String) (hk : ¬k = key) :
    objGet (List.map (fun p => if p.1 == key then (p.1, value) else p) kv) k =
      objGet kv k := by
  induction kv with
  | nil => rfl
  | cons p ps ih =>
    rw [List.map_cons]
    by_cases hp : (p.1 == key) = true
    · have hpk : ¬(p.1 == k) = true := by
        rw [beq_iff_eq]
        intro h
        exact hk ((beq_iff_eq.mp hp ▸ h : key = k)).symm
      rw [if_pos hp, objGet_cons, objGet_cons,
        if_neg (by simpa using hpk : ¬((p.1, value).1 == k) = true),
        if_neg hpk, ih]
    · rw [if_neg hp, objGet_cons, objGet_cons, ih]

theorem objGet_append_single (kv : List (String × String))
    (key value k : String) :
    objGet (kv ++ [(key, value)]) k =
      match objGet kv k with
      | some v => some v
      | none => if k = key then some value else none := by
  induction kv with
  | nil =>
    rw [List.nil_append, objGet_cons]
    by_cases hk : k = key
    · subst hk
      simp [objGet]
    · have hkk : (key == k) = false := by
        rw [beq_eq_false_iff_ne]
        exact fun h => hk h.symm
      simp [objGet, hkk, hk]
  | cons p ps ih =>
    rw [List.cons_append, objGet_cons, objGet_cons]
    by_cases hp : (p.1 == k) = true
    · rw [if_pos hp, if_pos hp]
    · rw [if_neg hp, if_neg hp, ih]

theorem objGet_eq_none_of_not_any (kv : List (String × String)) (k : String)
    (h : ¬List.any kv (fun p => p.1 == k) = true) : objGet kv k = none := by
  induction kv with
  | nil => rfl
  | cons p ps ih =>
    simp only [List.any_cons, Bool.or_eq_true, not_or] at h
    rw [objGet_cons, if_neg h.1]
    exact ih h.2

theorem objGet_objSet (kv : List (String × String)) (key value k : String) :
    objGet (objSet kv key value) k =
      if k = key then some value else objGet kv k := by
  unfold objSet
  by_cases ha : List.any kv (fun p => p.1 == key) = true
  · rw [if_pos ha]
    by_cases hk : k = key
    · subst hk
      rw [objGet_map_set_self, if_pos ha, if_pos rfl]
    · rw [objGet_map_set_other _ _ _ _ hk, if_neg hk]
  · rw [if_neg ha, objGet_append_single]
    by_cases hk : k = key
    · subst hk
      rw [objGet_eq_none_of_not_any _ _ ha, if_pos rfl]
    · cases h : objGet kv k <;> simp [hk]

/-! ## Claim theorems -/

/-- C9: for every key and value, the `set_memory` tool handler returns
`{ ok: true }` and updates the memory map so that the entry for `key`
maps to `value` while the entry for every other key is unchanged. -/
theorem setMemory_updates_key_and_frames_rest
    (kv : List (String × String)) (key value k : String) :
    (setMemoryHandler kv key value).2 = true ∧
    objGet (setMemoryHandler kv key value).1 k =
      if k = key then some value else objGet kv k :=
  ⟨rfl, objGet_objSet kv key value k⟩

/-- C1: `disconnectConversation`, on a state with a pending (truthy)
animation frame and an open audio context, first cancels the frame and
awaits `audioContext.close()`, then resets the UI state — `isConnected`,
`isRecording`, `isRecordingActive` to false; `items`, `realtimeEvents`
and `memoryKv` cleared; every audio level back to 20 — before
disconnecting the client, ending the recorder and interrupting the
stream player, in that order. -/
theorem disconnect_cancels_closes_and_resets (s : UIState) (id : Nat)
    (hf : s.animationFrame = some id) (hid : id ≠ 0)
    (hac : s.audioContextOpen = true) :
    (disconnectConversation s).2 =
      [Action.cancelFrame id, Action.audioContextClose,
        Action.setAudioContextNull, Action.setAnalyserNull,
        Action.setRecordingActive false, Action.setConnected false,
        Action.resetLevels, Action.setRecording false, Action.clearEvents,
        Action.clearItems, Action.clearMemory, Action.clientDisconnect,
        Action.recorderEnd, Action.playerInterrupt] ∧
    (disconnectConversation s).1.isConnected = false ∧
    (disconnectConversation s).1.isRecording = false ∧
    (disconnectConversation s).1.isRecordingActive = false ∧
    (disconnectConversation s).1.items = [] ∧
    (disconnectConversation s).1.realtimeEvents = [] ∧
    (disconnectConversation s).1.memoryKv = [] ∧
    ∀ l ∈ (disconnectConversation s).1.audioLevels, l.level = 20 := by
  refine ⟨?_, rfl, rfl, rfl, rfl, rfl, rfl, ?_⟩
  · simp [disconnectConversation, hf, hid, hac]
  · intro l hl
    simp only [disconnectConversation, List.mem_map] at hl
    obtain ⟨l', _, rfl⟩ := hl
    rfl

/-- C1 witness: the theorem applied to a concrete state with frame id 7
pending and an open audio context. -/
theorem disconnect_cancels_closes_and_resets_witness :
    (disconnectConversation
        ⟨true, true, true, false, ["i1"], [], [("k", "v")],
          [⟨37, 1⟩], some 7, true⟩).2 =
      [Action.cancelFrame 7, Action.audioContextClose,
        Action.setAudioContextNull, Action.setAnalyserNull,
        Action.setRecordingActive false, Action.setConnected false,
        Action.resetLevels, Action.setRecording false, Action.clearEvents,
        Action.clearItems, Action.clearMemory, Action.clientDisconnect,
        Action.recorderEnd, Action.playerInterrupt] ∧
    (disconnectConversation
        ⟨true, true, true, false, ["i1"], [], [("k", "v")],
          [⟨37, 1⟩], some 7, true⟩).1.isConnected = false :=
  ⟨(disconnect_cancels_closes_and_resets _ 7 rfl (by decide) rfl).1,
    (disconnect_cancels_closes_and_resets _ 7 rfl (by decide) rfl).2.1⟩

/-- C7: one frame of the render loop, with both canvases and contexts
available, clears the client canvas and draws its bars from
`wavRecorder.getFrequencies('voice')` exactly when the recorder is
recording and from the single-element zero array otherwise, and clears
the server canvas and draws its bars from
`wavStreamPlayer.getFrequencies('voice')` exactly when the player's
analyser exists and from the single-element zero array otherwise. -/
theorem renderFrame_sources (env : RenderEnv)
    (hc : env.clientCanvasOk = true) (hcx : env.clientCtxOk = true)
    (hs : env.serverCanvasOk = true) (hsx : env.serverCtxOk = true) :
    renderFrame env =
      [RenderAction.clearClient,
        RenderAction.drawClientBars
          (if env.recording = true then env.recorderFreqs else [0])
          "#4F46E5" 20 2 16,
        RenderAction.clearServer,
        RenderAction.drawServerBars
          (if env.analyserPresent = true then env.playerFreqs else [0])
          "#009900" 10 0 8,
        RenderAction.requestNextFrame] := by
  cases hr : env.recording <;> cases ha : env.analyserPresent <;>
    simp [renderFrame, hc, hcx, hs, hsx, hr, ha]

/-- C7 witness: the theorem applied to a concrete environment with the
recorder recording and no player analyser. -/
theorem renderFrame_sources_witness :
    renderFrame ⟨true, true, true, true, true, [3, 5], false, [9]⟩ =
      [RenderAction.clearClient,
        RenderAction.drawClientBars (if true = true then [3, 5] else [0])
          "#4F46E5" 20 2 16,
        RenderAction.clearServer,
        RenderAction.drawServerBars (if false = true then [9] else [0])
          "#009900" 10 0 8,
        RenderAction.requestNextFrame] :=
  renderFrame_sources ⟨true, true, true, true, true, [3, 5], false, [9]⟩
    rfl rfl rfl rfl

theorem initApiKey_fst (relay : String) (st : Storage) (pr : Option String) :
    (initApiKey relay st pr).1 =
      if relay == "" then
        jsOrStr (st.getItem "tmp::voice_api_key") (jsOrStr pr "")
      else "" := by
  unfold initApiKey
  dsimp only []
  split <;> split <;> rfl

/-- C6: with no relay server configured, the API key is read from the
`tmp::voice_api_key` local-storage entry, falling back to the prompt
when the stored value is absent or empty; any non-empty key is written
back under `tmp::voice_api_key`; and `resetAPIKey`, when the prompt is
not cancelled, clears local storage and stores the entered key under the
same entry before reloading. -/
theorem apiKey_localStorage_persistence :
    (∀ st pr v, ¬v = "" → Storage.getItem st "tmp::voice_api_key" = some v →
      (initApiKey "" st pr).1 = v) ∧
    (∀ st pr, jsTruthy (Storage.getItem st "tmp::voice_api_key") = false →
      (initApiKey "" st pr).1 = jsOrStr pr "") ∧
    (∀ relay st pr, ¬(initApiKey relay st pr).1 = "" →
      Storage.getItem (initApiKey relay st pr).2 "tmp::voice_api_key" =
        some (initApiKey relay st pr).1) ∧
    (∀ st key,
      (resetAPIKey st (some key)).2 =
        [KeyAction.promptUser, KeyAction.storageClear,
          KeyAction.storageSet "tmp::voice_api_key" key, KeyAction.reload] ∧
      Storage.getItem (resetAPIKey st (some key)).1 "tmp::voice_api_key" =
        some key ∧
      ∀ k, ¬k = "tmp::voice_api_key" →
        Storage.getItem (resetAPIKey st (some key)).1 k = none) := by
  refine ⟨?_, ?_, ?_, ?_⟩
  · intro st pr v hv hst
    have hvb : (v == "") = false := by simpa using hv
    simp [initApiKey, jsOrStr, hst, hvb]
  · intro st pr h
    rw [initApiKey_fst]
    simp only [beq_self_eq_true, if_true]
    cases hst : Storage.getItem st "tmp::voice_api_key" with
    | none => rfl
    | some v =>
      rw [hst] at h
      have hvb : (v == "") = true := by
        by_contra hc
        simp [jsTruthy, Bool.eq_false_iff.mpr hc] at h
      simp [jsOrStr, hvb]
  · intro relay st pr h
    unfold initApiKey at h ⊢
    by_cases hk : ((if relay == "" then
        jsOrStr (st.getItem "tmp::voice_api_key") (jsOrStr pr "")
      else "") == "") = true
    · rw [if_pos hk] at h
      exact absurd (beq_iff_eq.mp hk) (by simpa using h)
    · rw [if_neg hk] at h ⊢
      show objGet (objSet st "tmp::voice_api_key" _) "tmp::voice_api_key" = _
      rw [objGet_objSet, if_pos rfl]
  · intro st key
    refine ⟨rfl, ?_, ?_⟩
    · show objGet (objSet Storage.clearAll "tmp::voice_api_key" key)
        "tmp::voice_api_key" = some key
      rw [objGet_objSet, if_pos rfl]
    · intro k hk
      show objGet (objSet Storage.clearAll "tmp::voice_api_key" key) k = none
      rw [objGet_objSet, if_neg hk]
      rfl

/-- C6 witness: the theorem applied to a concrete storage holding the
key `"sk-x"`, an empty storage falling back to the prompt, a non-empty
key being written back, and a `resetAPIKey` run. -/
theorem apiKey_localStorage_persistence_witness :
    (initApiKey "" [("tmp::voice_api_key", "sk-x")] none).1 = "sk-x" ∧
    (initApiKey "" [] (some "sk-y")).1 = jsOrStr (some "sk-y") "" ∧
    Storage.getItem (initApiKey "" [] (some "sk-y")).2 "tmp::voice_api_key" =
      some (initApiKey "" [] (some "sk-y")).1 ∧
    Storage.getItem (resetAPIKey [("a", "b")] (some "sk-z")).1
      "tmp::voice_api_key" = some "sk-z" :=
  ⟨apiKey_localStorage_persistence.1 _ none "sk-x" (by decide) rfl,
    apiKey_localStorage_persistence.2.1 [] (some "sk-y") rfl,
    apiKey_localStorage_persistence.2.2.1 "" [] (some "sk-y") (by decide),
    (apiKey_localStorage_persistence.2.2.2 [("a", "b")] "sk-z").2.1⟩

/-- C2: whenever an awaited setup step of `connectConversation` throws
(microphone acquisition, recorder begin, player connect, client connect,
session update, or starting recording), the error is caught and logged
to console and both `isConnected` and `isRecordingActive` end up false.
The function is total on its environment — both `catch` blocks swallow
the error, so it never rethrows. -/
theorem connect_error_resets_flags (env : ConnectEnv) (s : UIState)
    (h : connectStepFails env = true) :
    (connectConversation env s).1.isConnected = false ∧
    (connectConversation env s).1.isRecordingActive = false ∧
    hasConsoleError (connectConversation env s).2 = true := by
  obtain ⟨um, rf, rb, pc, cc, ca, us, ro, items, fid⟩ := env
  simp only [connectStepFails] at h
  cases um <;> cases rf <;> cases rb <;> cases pc <;> cases cc <;>
    cases ca <;> cases us <;> cases ro <;>
    simp_all [connectConversation, hasConsoleError]

/-- C2 witness: the theorem applied to an environment where
`client.connect()` throws. -/
theorem connect_error_resets_flags_witness :
    (connectConversation ⟨true, true, true, true, false, false, true, true, [], 3⟩
      ⟨false, false, false, false, [], [], [], [], none, false⟩).1.isConnected
        = false ∧
    hasConsoleError (connectConversation
      ⟨true, true, true, true, false, false, true, true, [], 3⟩
      ⟨false, false, false, false, [], [], [], [], none, false⟩).2 = true :=
  ⟨(connect_error_resets_flags
      ⟨true, true, true, true, false, false, true, true, [], 3⟩
      ⟨false, false, false, false, [], [], [], [], none, false⟩ rfl).1,
    (connect_error_resets_flags
      ⟨true, true, true, true, false, false, true, true, [], 3⟩
      ⟨false, false, false, false, [], [], [], [], none, false⟩ rfl).2.2⟩

/-- C4: with every awaited step succeeding, `connectConversation`
records the start time, sets `isConnected`, clears `realtimeEvents` and
loads the client's conversation items in that order, then awaits
`wavRecorder.begin()`, `wavStreamPlayer.connect()` and
`client.connect()`; the `server_vad` session update, the initial user
message `Привіт!` and the recording start happen exactly when the client
then reports connected. -/
theorem connect_sequence_order (env : ConnectEnv) (s : UIState)
    (h1 : env.userMediaOk = true) (h2 : env.refsOk = true)
    (h3 : env.recorderBeginOk = true) (h4 : env.playerConnectOk = true)
    (h5 : env.clientConnectOk = true) (h6 : env.updateSessionOk = true)
    (h7 : env.recordOk = true) :
    (env.connectedAfter = true →
      (connectConversation env s).2 =
        [Action.getUserMedia, Action.setRecordingActive true,
          Action.requestFrame, Action.consoleLog "Starting connection...",
          Action.consoleLog "Components checked, proceeding with connection...",
          Action.setStartTime, Action.setConnected true, Action.clearEvents,
          Action.setItems env.clientItems, Action.recorderBegin,
          Action.playerConnect, Action.clientConnect,
          Action.consoleLog "Successfully connected!",
          Action.updateSession (some "server_vad"),
          Action.sendUserMessage "Привіт!", Action.recorderRecord]) ∧
    (env.connectedAfter = false →
      (connectConversation env s).2 =
        [Action.getUserMedia, Action.setRecordingActive true,
          Action.requestFrame, Action.consoleLog "Starting connection...",
          Action.consoleLog "Components checked, proceeding with connection...",
          Action.setStartTime, Action.setConnected true, Action.clearEvents,
          Action.setItems env.clientItems, Action.recorderBegin,
          Action.playerConnect, Action.clientConnect] ∧
      (∀ td, Action.updateSession td ∉ (connectConversation env s).2) ∧
      Action.sendUserMessage "Привіт!" ∉ (connectConversation env s).2 ∧
      Action.recorderRecord ∉ (connectConversation env s).2) := by
  obtain ⟨um, rf, rb, pc, cc, ca, us, ro, items, fid⟩ := env
  cases um <;> cases rf <;> cases rb <;> cases pc <;> cases cc <;>
    cases us <;> cases ro <;> simp_all <;> cases ca <;>
    simp_all [connectConversation]

/-- C4 witness: the theorem applied to a fully succeeding environment
reporting connected, and to one reporting not connected. -/
theorem connect_sequence_order_witness :
    ((connectConversation ⟨true, true, true, true, true, true, true, true, ["x"], 5⟩
        ⟨false, false, false, false, [], [], [], [], none, false⟩).2 =
      [Action.getUserMedia, Action.setRecordingActive true,
        Action.requestFrame, Action.consoleLog "Starting connection...",
        Action.consoleLog "Components checked, proceeding with connection...",
        Action.setStartTime, Action.setConnected true, Action.clearEvents,
        Action.setItems ["x"], Action.recorderBegin,
        Action.playerConnect, Action.clientConnect,
        Action.consoleLog "Successfully connected!",
        Action.updateSession (some "server_vad"),
        Action.sendUserMessage "Привіт!", Action.recorderRecord]) ∧
    Action.recorderRecord ∉
      (connectConversation ⟨true, true, true, true, true, false, true, true, ["x"], 5⟩
        ⟨false, false, false, false, [], [], [], [], none, false⟩).2 :=
  ⟨(connect_sequence_order ⟨true, true, true, true, true, true, true, true, ["x"], 5⟩
      _ rfl rfl rfl rfl rfl rfl rfl).1 rfl,
    ((connect_sequence_order ⟨true, true, true, true, true, false, true, true, ["x"], 5⟩
      _ rfl rfl rfl rfl rfl rfl rfl).2 rfl).2.2.2⟩

/-- C3: on a connected client with every awaited call succeeding,
`changeTurnEndType 'server_vad'` updates the session with
`turn_detection { type: 'server_vad' }`, starts a new continuous
recording and sets `canPushToTalk` to false;
`changeTurnEndType 'none'` pauses an active recording, updates the
session with `turn_detection` null and sets `canPushToTalk` to true;
and the installed microphone callback appends audio to the client
exactly when the client is connected at the time of the chunk. -/
theorem changeTurnEndType_vad_modes (env : TurnEnv) (s : UIState)
    (h1 : env.refsOk = true) (h2 : env.clientConnected = true)
    (h3 : env.pauseOk = true) (h4 : env.updateSessionOk = true)
    (h5 : env.recordOk = true) :
    (env.recorderStatusRecording = false →
      changeTurnEndType env "server_vad" s =
        ({ s with canPushToTalk := false },
          [Action.updateSession (some "server_vad"), Action.sleep 100,
            Action.recorderRecord, Action.setCanPushToTalk false])) ∧
    (env.recorderStatusRecording = true →
      changeTurnEndType env "server_vad" s =
        ({ s with isRecording := false, canPushToTalk := false },
          [Action.recorderPause, Action.setRecording false,
            Action.updateSession (some "server_vad"), Action.sleep 100,
            Action.recorderRecord, Action.setCanPushToTalk false])) ∧
    (env.recorderStatusRecording = true →
      changeTurnEndType env "none" s =
        ({ s with isRecording := false, canPushToTalk := true },
          [Action.recorderPause, Action.setRecording false,
            Action.updateSession none, Action.setCanPushToTalk true])) ∧
    (env.recorderStatusRecording = false →
      changeTurnEndType env "none" s =
        ({ s with canPushToTalk := true },
          [Action.updateSession none, Action.setCanPushToTalk true])) ∧
    (∀ mono, recordCallback true mono = [Action.appendInputAudio mono]) ∧
    (∀ mono, recordCallback false mono = []) := by
  obtain ⟨rf, rsr, po, cnx, us, ro⟩ := env
  cases rsr <;>
    simp_all [changeTurnEndType, changeTurnRest, recordCallback]

/-- C3 witness: the theorem applied to a connected, fully succeeding
environment with an active recording, in both modes, and the callback
at a concrete chunk. -/
theorem changeTurnEndType_vad_modes_witness :
    changeTurnEndType ⟨true, true, true, true, true, true⟩ "server_vad"
        ⟨true, true, true, true, [], [], [], [], none, false⟩ =
      ({ isConnected := true, isRecording := false, isRecordingActive := true,
          canPushToTalk := false, items := [], realtimeEvents := [],
          memoryKv := [], audioLevels := [], animationFrame := none,
          audioContextOpen := false },
        [Action.recorderPause, Action.setRecording false,
          Action.updateSession (some "server_vad"), Action.sleep 100,
          Action.recorderRecord, Action.setCanPushToTalk false]) ∧
    changeTurnEndType ⟨true, false, true, true, true, true⟩ "none"
        ⟨true, false, true, false, [], [], [], [], none, false⟩ =
      ({ isConnected := true, isRecording := false, isRecordingActive := true,
          canPushToTalk := true, items := [], realtimeEvents := [],
          memoryKv := [], audioLevels := [], animationFrame := none,
          audioContextOpen := false },
        [Action.updateSession none, Action.setCanPushToTalk true]) ∧
    recordCallback true [1, -2] = [Action.appendInputAudio [1, -2]] :=
  ⟨(changeTurnEndType_vad_modes ⟨true, true, true, true, true, true⟩
      _ rfl rfl rfl rfl rfl).2.1 rfl,
    (changeTurnEndType_vad_modes ⟨true, false, true, true, true, true⟩
      _ rfl rfl rfl rfl rfl).2.2.2.1 rfl,
    (changeTurnEndType_vad_modes ⟨true, false, true, true, true, true⟩
      ⟨true, false, true, false, [], [], [], [], none, false⟩
      rfl rfl rfl rfl rfl).2.2.2.2.1 [1, -2]⟩

/-- C5: `changeTurnEndType` never rethrows and never retries.  When an
awaited call inside it fails, the error is logged to console,
`canPushToTalk` is left unchanged, and the `setCanPushToTalk` update is
skipped; on every run, the session is updated at most once and a
recording is started at most once. -/
theorem changeTurnEndType_error_swallows :
    (∀ env value s, turnStepFails env value = true →
      (changeTurnEndType env value s).1.canPushToTalk = s.canPushToTalk ∧
      hasConsoleError (changeTurnEndType env value s).2 = true ∧
      Action.setCanPushToTalk (value == "none")
        ∉ (changeTurnEndType env value s).2) ∧
    (∀ env value s,
      countUpdateSession (changeTurnEndType env value s).2 ≤ 1 ∧
      countRecord (changeTurnEndType env value s).2 ≤ 1) := by
  constructor
  · intro env value s h
    obtain ⟨rf, rsr, po, cnx, us, ro⟩ := env
    simp only [turnStepFails] at h
    cases rf <;> cases rsr <;> cases po <;> cases cnx <;> cases us <;>
      cases ro <;> by_cases hv : (value == "server_vad") = true <;>
      simp_all [changeTurnEndType, changeTurnRest, hasConsoleError]
  · intro env value s
    obtain ⟨rf, rsr, po, cnx, us, ro⟩ := env
    cases rf <;> cases rsr <;> cases po <;> cases cnx <;> cases us <;>
      cases ro <;> by_cases hv : (value == "server_vad") = true <;>
      simp_all [changeTurnEndType, changeTurnRest, countUpdateSession,
        countRecord]

/-- C5 witness: the theorem applied with a failing session update: the
mode flag is untouched, the error is logged, and the counts stay at
most one. -/
theorem changeTurnEndType_error_swallows_witness :
    ((changeTurnEndType ⟨true, false, true, true, false, true⟩ "none"
        ⟨true, false, true, false, [], [], [], [], none, false⟩).1.canPushToTalk
      = false) ∧
    hasConsoleError (changeTurnEndType ⟨true, false, true, true, false, true⟩
      "none" ⟨true, false, true, false, [], [], [], [], none, false⟩).2 = true ∧
    countUpdateSession (changeTurnEndType ⟨true, false, true, true, false, true⟩
      "none" ⟨true, false, true, false, [], [], [], [], none, false⟩).2 ≤ 1 :=
  ⟨(changeTurnEndType_error_swallows.1 ⟨true, false, true, true, false, true⟩
      "none" ⟨true, false, true, false, [], [], [], [], none, false⟩ rfl).1,
    (changeTurnEndType_error_swallows.1 ⟨true, false, true, true, false, true⟩
      "none" ⟨true, false, true, false, [], [], [], [], none, false⟩ rfl).2.1,
    (changeTurnEndType_error_swallows.2 ⟨true, false, true, true, false, true⟩
      "none" ⟨true, false, true, false, [], [], [], [], none, false⟩).1⟩

theorem mapIdxFrom_map_id (f : Nat → AudioLevel → AudioLevel)
    (hf : ∀ i l, (f i l).id = l.id) :
    ∀ (i : Nat) (ls : List AudioLevel),
      (mapIdxFrom f i ls).map AudioLevel.id = ls.map AudioLevel.id := by
  intro i ls
  induction ls generalizing i with
  | nil => rfl
  | cons l ls ih => simp [mapIdxFrom, hf, ih]

theorem mem_mapIdxFrom (f : Nat → AudioLevel → AudioLevel) :
    ∀ (i : Nat) (ls : List AudioLevel) (x : AudioLevel),
      x ∈ mapIdxFrom f i ls → ∃ j l, l ∈ ls ∧ x = f j l := by
  intro i ls
  induction ls generalizing i with
  | nil =>
    intro x hx
    simp [mapIdxFrom] at hx
  | cons l ls ih =>
    intro x hx
    rw [mapIdxFrom] at hx
    rcases List.mem_cons.mp hx with h | h
    · exact ⟨i, l, List.mem_cons_self l ls, h⟩
    · obtain ⟨j, l', hl', hx'⟩ := ih (i + 1) x h
      exact ⟨j, l', List.mem_cons_of_mem _ hl', hx'⟩

theorem jsClamp_bounds (lo hi x : ℚ) (h : lo ≤ hi) :
    lo ≤ jsClamp lo hi x ∧ jsClamp lo hi x ≤ hi :=
  ⟨le_min h (le_max_left lo x), min_le_left hi _⟩

/-- C10: every step of `updateAudioLevels` preserves the audio-level
entries' ids and their order and keeps every level within `[20, 100]`:
while recording (with frequency values available) each new level is
clamped into `[20, 100]`; while not recording each level becomes 20 plus
a random value strictly below 5; and the initial levels are all 20. -/
theorem updateAudioLevels_invariant (recording : Bool)
    (freqs : Option (List ℚ)) (randRec randIdle : Nat → ℚ)
    (levels : List AudioLevel)
    (hrr : ∀ i, 0 ≤ randRec i ∧ randRec i < 1)
    (hri : ∀ i, 0 ≤ randIdle i ∧ randIdle i < 1)
    (hlv : ∀ l ∈ levels, 20 ≤ l.level ∧ l.level ≤ 100) :
    (updateAudioLevels recording freqs randRec randIdle levels).map
        AudioLevel.id = levels.map AudioLevel.id ∧
    (∀ l ∈ updateAudioLevels recording freqs randRec randIdle levels,
      20 ≤ l.level ∧ l.level ≤ 100) ∧
    (recording = false →
      ∀ l ∈ updateAudioLevels recording freqs randRec randIdle levels,
        20 ≤ l.level ∧ l.level < 25) ∧
    (∀ l ∈ initialAudioLevels, l.level = 20) := by
  have hrec_eq : ∀ vs, ∃ f : Nat → AudioLevel → AudioLevel,
      updateAudioLevels true (some vs) randRec randIdle levels =
        mapIdxFrom f 0 levels ∧
      (∀ i l, (f i l).id = l.id) ∧
      (∀ i l, 20 ≤ (f i l).level ∧ (f i l).level ≤ 100) := by
    intro vs
    refine ⟨_, rfl, fun i l => rfl,
      fun i l => jsClamp_bounds 20 100 _ (by norm_num)⟩
  have hidle_eq : updateAudioLevels false freqs randRec randIdle levels =
      mapIdxFrom (fun i l => { l with level := 20 + randIdle i * 5 })
        0 levels := rfl
  have hnone_eq : updateAudioLevels true none randRec randIdle levels =
      levels := rfl
  have hidle : ∀ l ∈ mapIdxFrom
      (fun i l => { l with level := 20 + randIdle i * 5 }) 0 levels,
      20 ≤ l.level ∧ l.level < 25 := by
    intro x hx
    obtain ⟨j, l, _, rfl⟩ := mem_mapIdxFrom _ 0 levels x hx
    obtain ⟨h0, h1⟩ := hri j
    constructor
    · show (20 : ℚ) ≤ 20 + randIdle j * 5
      nlinarith
    · show 20 + randIdle j * 5 < (25 : ℚ)
      nlinarith
  refine ⟨?_, ?_, ?_, ?_⟩
  · cases recording with
    | false =>
      rw [hidle_eq]
      exact mapIdxFrom_map_id
        (fun i l => { l with level := 20 + randIdle i * 5 })
        (fun i l => rfl) 0 levels
    | true =>
      cases freqs with
      | none => rw [hnone_eq]
      | some vs =>
        obtain ⟨f, hfe, hfid, _⟩ := hrec_eq vs
        rw [hfe]
        exact mapIdxFrom_map_id f hfid 0 levels
  · cases recording with
    | false =>
      rw [hidle_eq]
      intro x hx
      exact ⟨(hidle x hx).1, le_trans (hidle x hx).2.le (by norm_num)⟩
    | true =>
      cases freqs with
      | none =>
        rw [hnone_eq]
        exact hlv
      | some vs =>
        obtain ⟨f, hfe, _, hfb⟩ := hrec_eq vs
        rw [hfe]
        intro x hx
        obtain ⟨j, l, _, rfl⟩ := mem_mapIdxFrom f 0 levels x hx
        exact hfb j l
  · intro hrec
    subst hrec
    rw [hidle_eq]
    exact hidle
  · intro l hl
    simp only [initialAudioLevels, List.mem_cons, List.not_mem_nil,
      or_false] at hl
    rcases hl with rfl | rfl | rfl | rfl | rfl <;> rfl

/-- C10 witness: the theorem applied with concrete random draws of 1/2,
a concrete frequency list, and the initial levels, in both the
recording and the idle branch. -/
theorem updateAudioLevels_invariant_witness :
    ((updateAudioLevels true (some [1/10]) (fun _ => 1/2) (fun _ => 1/2)
        initialAudioLevels).map AudioLevel.id =
      initialAudioLevels.map AudioLevel.id) ∧
    (∀ l ∈ updateAudioLevels true (some [1/10]) (fun _ => 1/2)
        (fun _ => 1/2) initialAudioLevels, 20 ≤ l.level ∧ l.level ≤ 100) ∧
    (∀ l ∈ updateAudioLevels false none (fun _ => 1/2) (fun _ => 1/2)
        initialAudioLevels, 20 ≤ l.level ∧ l.level < 25) :=
  ⟨(updateAudioLevels_invariant true (some [1/10]) (fun _ => 1/2)
      (fun _ => 1/2) initialAudioLevels (fun _ => by norm_num)
      (fun _ => by norm_num)
      (by
        intro l hl
        simp only [initialAudioLevels, List.mem_cons, List.not_mem_nil,
          or_false] at hl
        rcases hl with rfl | rfl | rfl | rfl | rfl <;> norm_num)).1,
    (updateAudioLevels_invariant true (some [1/10]) (fun _ => 1/2)
      (fun _ => 1/2) initialAudioLevels (fun _ => by norm_num)
      (fun _ => by norm_num)
      (by
        intro l hl
        simp only [initialAudioLevels, List.mem_cons, List.not_mem_nil,
          or_false] at hl
        rcases hl with rfl | rfl | rfl | rfl | rfl <;> norm_num)).2.1,
    (updateAudioLevels_invariant false none (fun _ => 1/2) (fun _ => 1/2)
      initialAudioLevels (fun _ => by norm_num) (fun _ => by norm_num)
      (by
        intro l hl
        simp only [initialAudioLevels, List.mem_cons, List.not_mem_nil,
          or_false] at hl
        rcases hl with rfl | rfl | rfl | rfl | rfl <;> norm_num)).2.2.1 rfl⟩

theorem etype_setCount (x : RealtimeEvent) (c : Option Nat) :
    etype { x with count := c } = etype x := rfl

theorem eventLogStep_chain (l : List RealtimeEvent) (e : RealtimeEvent)
    (h : List.Chain' adjOk l) : List.Chain' adjOk (eventLogStep l e) := by
  rcases List.eq_nil_or_concat l with rfl | ⟨l', a, rfl⟩
  · simp [eventLogStep]
  · simp only [List.concat_eq_append] at h ⊢
    unfold eventLogStep
    rw [List.getLast?_concat]
    dsimp only
    by_cases hc : (jsTruthy (etype a) && jsTruthy (etype e)
        && (etype a == etype e)) = true
    · rw [if_pos hc, List.dropLast_concat]
      rw [List.chain'_append] at h ⊢
      refine ⟨h.1, List.chain'_singleton _, ?_⟩
      intro x hx y hy
      simp only [List.head?_cons, Option.mem_def, Option.some_inj] at hy
      subst hy
      exact h.2.2 x hx a (by simp)
    · rw [if_neg hc, List.chain'_append]
      refine ⟨h, List.chain'_singleton _, ?_⟩
      intro x hx y hy
      simp only [List.head?_cons, Option.mem_def, Option.some_inj] at hy
      subst hy
      rw [List.getLast?_concat] at hx
      simp only [Option.mem_def, Option.some_inj] at hx
      subst hx
      rintro ⟨ht, heq⟩
      have heq' : etype a = etype e := heq
      have hte : jsTruthy (etype e) = true := heq' ▸ ht
      refine hc ?_
      rw [ht, hte, beq_iff_eq.mpr heq']
      rfl

theorem handleRealtimeEvent_chain (l : List RealtimeEvent)
    (e : Option RealtimeEvent) (h : List.Chain' adjOk l) :
    List.Chain' adjOk (handleRealtimeEvent l e) := by
  cases e with
  | none => exact h
  | some ev =>
    cases hev : ev.event with
    | none => simpa [handleRealtimeEvent, hev] using h
    | some b =>
      have hstep : handleRealtimeEvent l (some ev) = eventLogStep l ev := by
        simp [handleRealtimeEvent, hev]
      rw [hstep]
      exact eventLogStep_chain l ev h

theorem deliverAll_chain (es : List (Option RealtimeEvent)) :
    List.Chain' adjOk (deliverAll es) := by
  have key : ∀ (es' : List (Option RealtimeEvent)) (l : List RealtimeEvent),
      List.Chain' adjOk l →
      List.Chain' adjOk (es'.foldl handleRealtimeEvent l) := by
    intro es'
    induction es' with
    | nil => exact fun l hl => hl
    | cons e es' ih => exact fun l hl => ih _ (handleRealtimeEvent_chain l e hl)
  exact key es [] (by simp)

theorem eventLog_replace_clause (l : List RealtimeEvent)
    (last ev : RealtimeEvent) (hl : l.getLast? = some last)
    (ht : jsTruthy (etype last) = true) (heq : etype last = etype ev) :
    handleRealtimeEvent l (some ev) =
      l.dropLast
        ++ [{ last with count := some (jsCountOr1 last.count + 1) }] := by
  have hte : jsTruthy (etype ev) = true := heq ▸ ht
  cases hev : ev.event with
  | none =>
    exfalso
    rw [show etype ev = none from by simp [etype, hev]] at hte
    simp [jsTruthy] at hte
  | some b =>
    have hstep : handleRealtimeEvent l (some ev) = eventLogStep l ev := by
      simp [handleRealtimeEvent, hev]
    rw [hstep]
    unfold eventLogStep
    rw [hl]
    dsimp only
    rw [if_pos (by rw [ht, hte, beq_iff_eq.mpr heq]; rfl)]

theorem eventLog_append_clause (l : List RealtimeEvent) (ev : RealtimeEvent)
    (b : EventBody) (hev : ev.event = some b)
    (hlast : ∀ last, l.getLast? = some last →
      ¬(jsTruthy (etype last) = true ∧ etype last = etype ev)) :
    handleRealtimeEvent l (some ev) = l ++ [{ ev with count := some 1 }] := by
  have hstep : handleRealtimeEvent l (some ev) = eventLogStep l ev := by
    simp [handleRealtimeEvent, hev]
  rw [hstep]
  unfold eventLogStep
  cases hl : l.getLast? with
  | none => rfl
  | some last =>
    dsimp only
    rw [if_neg]
    intro hc
    simp only [Bool.and_eq_true, beq_iff_eq] at hc
    exact hlast last hl ⟨hc.1.1, hc.2⟩

/-- C8 (amended): for every sequence of delivered realtime events, the
log never contains two adjacent entries with an equal *truthy* (present
and non-empty) `event.type`; an incoming event whose truthy `event.type`
equals the last entry's truthy `event.type` replaces that entry with its
count incremented by one (an absent count treated as 1); any other valid
event is appended with count 1; and an event missing its `event` field
leaves the list unchanged.  (The unamended claim, which compares
`event.type` regardless of truthiness, fails: see the counterexample.) -/
theorem eventLog_reducer_invariant :
    (∀ es, List.Chain' adjOk (deliverAll es)) ∧
    (∀ l, handleRealtimeEvent l none = l) ∧
    (∀ l ev, ev.event = none → handleRealtimeEvent l (some ev) = l) ∧
    (∀ l last ev, l.getLast? = some last →
      jsTruthy (etype last) = true → etype last = etype ev →
      handleRealtimeEvent l (some ev) =
        l.dropLast
          ++ [{ last with count := some (jsCountOr1 last.count + 1) }]) ∧
    (∀ l ev b, ev.event = some b →
      (∀ last, l.getLast? = some last →
        ¬(jsTruthy (etype last) = true ∧ etype last = etype ev)) →
      handleRealtimeEvent l (some ev) = l ++ [{ ev with count := some 1 }]) :=
  ⟨deliverAll_chain,
    fun _ => rfl,
    fun l ev hev => by simp [handleRealtimeEvent, hev],
    eventLog_replace_clause,
    eventLog_append_clause⟩

/-- C8 witness: the amended theorem applied to concrete deliveries — a
replacement of a repeated truthy type `"a"` with count 2, and an append
of a fresh event with count 1 into the empty log. -/
theorem eventLog_reducer_invariant_witness :
    List.Chain' adjOk
      (deliverAll [some ⟨"t0", "server", none, some ⟨some "a"⟩⟩]) ∧
    handleRealtimeEvent [⟨"t0", "server", some 1, some ⟨some "a"⟩⟩]
        (some ⟨"t1", "server", none, some ⟨some "a"⟩⟩) =
      [⟨"t0", "server", some 2, some ⟨some "a"⟩⟩] ∧
    handleRealtimeEvent [] (some ⟨"t1", "server", none, some ⟨some "b"⟩⟩) =
      [⟨"t1", "server", some 1, some ⟨some "b"⟩⟩] :=
  ⟨eventLog_reducer_invariant.1 [some ⟨"t0", "server", none, some ⟨some "a"⟩⟩],
    eventLog_reducer_invariant.2.2.2.1
      [⟨"t0", "server", some 1, some ⟨some "a"⟩⟩]
      ⟨"t0", "server", some 1, some ⟨some "a"⟩⟩
      ⟨"t1", "server", none, some ⟨some "a"⟩⟩ rfl rfl rfl,
    eventLog_reducer_invariant.2.2.2.2 []
      ⟨"t1", "server", none, some ⟨some "b"⟩⟩ ⟨some "b"⟩ rfl
      (fun last h => by simp at h)⟩

/-- C8 counterexample to the claim as stated: delivering twice an event
whose `event.type` is the empty string (present but falsy) appends both
times — the log ends with two adjacent entries of equal `event.type`,
and the second delivery did not replace the first entry with an
incremented count. -/
theorem eventLog_adjacent_equal_type_counterexample :
    deliverAll
        [some ⟨"t0", "server", none, some ⟨some ""⟩⟩,
          some ⟨"t1", "server", none, some ⟨some ""⟩⟩] =
      [⟨"t0", "server", some 1, some ⟨some ""⟩⟩,
        ⟨"t1", "server", some 1, some ⟨some ""⟩⟩] ∧
    ¬List.Chain' (fun a b => ¬etype a = etype b)
      (deliverAll
        [some ⟨"t0", "server", none, some ⟨some ""⟩⟩,
          some ⟨"t1", "server", none, some ⟨some ""⟩⟩]) := by
  have h1 : deliverAll
      [some ⟨"t0", "server", none, some ⟨some ""⟩⟩,
        some ⟨"t1", "server", none, some ⟨some ""⟩⟩] =
      [⟨"t0", "server", some 1, some ⟨some ""⟩⟩,
        ⟨"t1", "server", some 1, some ⟨some ""⟩⟩] := rfl
  refine ⟨h1, ?_⟩
  intro hch
  rw [h1, List.chain'_cons] at hch
  exact hch.1 rfl

end ConsolePage
